import Mathlib

/-!
Verification of the connection-supervisor core of `cloudflared_proxy`
(`src/supervisor/tunnel.go` and `src/edgediscovery/dial.go`) against its
natural-language specification.

The Go code is shallowly embedded: pure Lean functions mirror the pure
decision logic of the source; side effects (map mutation, deadlines on a
connection, the backoff timer select) are made explicit through state
records and event types.  Error values are modelled by the inductive
`GoErr`, with one constructor per dynamic error type the source
discriminates on.
-/

namespace CloudflaredProxy

/-- Transport protocols the supervisor chooses between (`connection.Protocol`
restricted to the two values the spec names: QUIC and HTTP2). -/
inductive Protocol
  | QUIC
  | HTTP2
deriving DecidableEq, Repr

/-- Go error values, one constructor per dynamic error type that the code in
`src/supervisor/tunnel.go` and `src/edgediscovery/dial.go` discriminates on.

* `serverRegister cause permanent` models `connection.ServerRegisterTunnelError`
  with the two fields (`Cause`, `Permanent`) the src code reads.
* `dialError` models `edgediscovery.DialError` (holds a wrapped cause,
  exposes it through `Cause()` only, no `Unwrap`).
* `edgeQuicDialError` models `*connection.EdgeQuicDialError` (holds a `Cause`
  field; the src code reads it directly, never through `errors.Unwrap`).
* `reconnectSignal` models `ReconnectSignal` with its `Delay` field.
* `wrapped msg cause` models `errors.Wrap`/`errors.Wrapf` from pkg/errors,
  which does implement `Unwrap`; it is the only constructor the
  `errors.As` chain walk of `isQuicBroken` descends through.
* `unrecoverable` models `unrecoverableError` (only an `Error()` method).
* `connectivity` models `*ConnectivityError` with its `reachedMaxRetries`
  field. -/
inductive GoErr
  | dupConnRegister
  | serverRegister (cause : GoErr) (permanent : Bool)
  | idleTimeout
  | transportError (msg : String)
  | dialError (cause : GoErr)
  | edgeQuicDialError (cause : GoErr)
  | reconnectSignal (delay : Nat)
  | contextCanceled
  | unrecoverable (cause : GoErr)
  | connectivity (reachedMaxRetries : Bool)
  | wrapped (msg : String) (cause : GoErr)
  | other (msg : String)
deriving DecidableEq, Repr

/-- The `Error()` string of an error value.  Only the containment test of
`isQuicBroken` consumes it; messages of error types defined outside src/ are
modelled by representative strings.  `wrapped` renders in the pkg/errors
format `msg ++ ": " ++ inner`. -/
def errString : GoErr → String
  | .dupConnRegister => "already connected to this server, trying another address"
  | .serverRegister c _ => errString c
  | .idleTimeout => "timeout: no recent network activity"
  | .transportError msg => msg
  | .dialError c => errString c
  | .edgeQuicDialError c => "failed to dial to edge with quic: " ++ errString c
  | .reconnectSignal _ => "reconnect signal"
  | .contextCanceled => "context canceled"
  | .unrecoverable c => errString c
  | .connectivity b =>
      "connectivity error - reached max retries: " ++ (if b then "true" else "false")
  | .wrapped msg c => msg ++ ": " ++ errString c
  | .other msg => msg

/-- The pattern is a prefix of the character list. -/
def hasPrefixCL : List Char → List Char → Bool
  | [], _ => true
  | _ :: _, [] => false
  | p :: ps, c :: cs => p == c && hasPrefixCL ps cs

/-- The pattern occurs contiguously somewhere in the character list. -/
def hasInfixCL (pat : List Char) : List Char → Bool
  | [] => hasPrefixCL pat []
  | c :: cs => hasPrefixCL pat (c :: cs) || hasInfixCL pat cs

/-- `strings.Contains s pat`. -/
def strContains (s pat : String) : Bool :=
  hasInfixCL pat.data s.data

/-- `errors.As(cause, &idleTimeoutError)`: the error chain (walked through
`Unwrap`, i.e. through `wrapped`) contains a `*quic.IdleTimeoutError`. -/
def chainHasIdleTimeout : GoErr → Bool
  | .idleTimeout => true
  | .wrapped _ c => chainHasIdleTimeout c
  | _ => false

/-- `errors.As(cause, &transportError)`: the error chain contains a
`*quic.TransportError`. -/
def chainHasTransportError : GoErr → Bool
  | .transportError _ => true
  | .wrapped _ c => chainHasTransportError c
  | _ => false

/-- `isQuicBroken` from src/supervisor/tunnel.go: an idle-timeout error in the
chain, or a transport error in the chain while the top-level error text
contains "operation not permitted".  A nil cause is `none`. -/
def isQuicBroken : Option GoErr → Bool
  | none => false
  | some cause =>
      if chainHasIdleTimeout cause then true
      else if chainHasTransportError cause
              && strContains (errString cause) "operation not permitted" then true
      else false

/-- `ConnectivityError` from src/supervisor/tunnel.go. -/
structure ConnectivityError where
  reachedMaxRetries : Bool
deriving DecidableEq, Repr

/-- `ipAddrFallback` from src/supervisor/tunnel.go.  The Go map
`retriesByConnIndex map[uint8]uint8` is modelled as a total function with
default 0 (a missing key reads as zero in Go).  Counters are `Nat`: the code
increments only while the counter is strictly below `maxRetries : uint8`, so
no uint8 overflow is reachable and the widths do not matter. -/
structure IpAddrFallback where
  retriesByConnIndex : Nat → Nat
  maxRetries : Nat

/-- `ipAddrFallback.ShouldGetNewAddress` from src/supervisor/tunnel.go,
returning the pair `(needsNewAddress, connectivityError)` together with the
updated classifier state (the Go method mutates the counter map in place).
The Go `switch err.(type)` matches the dynamic (top-level) type only, so no
unwrapping happens here. -/
def ShouldGetNewAddress (f : IpAddrFallback) (connIndex : Nat) (err : Option GoErr) :
    (Bool × Option ConnectivityError) × IpAddrFallback :=
  match err with
  | none => ((false, none), f)
  | some .dupConnRegister => ((true, none), f)
  | some .idleTimeout => ((true, none), f)
  | some (.dialError _) | some (.edgeQuicDialError _) =>
      if f.maxRetries ≤ f.retriesByConnIndex connIndex then
        let reset := Function.update f.retriesByConnIndex connIndex 0
        ((true, some ⟨true⟩), { f with retriesByConnIndex := reset })
      else
        let bumped := Function.update f.retriesByConnIndex connIndex
          (f.retriesByConnIndex connIndex + 1)
        ((true, some ⟨false⟩), { f with retriesByConnIndex := bumped })
  | some _ => ((false, none), f)

/-- Top-level dynamic type is `DupConnRegisterTunnelError` or
`*quic.IdleTimeoutError` (second arm of the classifier's type switch). -/
def isDupOrIdle : GoErr → Bool
  | .dupConnRegister => true
  | .idleTimeout => true
  | _ => false

/-- Top-level dynamic type is `edgediscovery.DialError` or
`*connection.EdgeQuicDialError` (third arm of the classifier's type switch). -/
def isDialFailure : GoErr → Bool
  | .dialError _ => true
  | .edgeQuicDialError _ => true
  | _ => false

/-- The classification table exactly as claim C2 states it, first match wins:
nil yields (false, nil); duplicate registration or QUIC idle-timeout yields
(true, nil); a DialError or EdgeQuicDialError yields (true, ConnectivityError)
with reached-max-retries true and a counter reset when the slot's counter is
at least maxRetries, else false with the counter incremented by one; any other
error yields (false, nil). -/
def claimedClassify (f : IpAddrFallback) (connIndex : Nat) (err : Option GoErr) :
    (Bool × Option ConnectivityError) × IpAddrFallback :=
  match err with
  | none => ((false, none), f)
  | some e =>
      if isDupOrIdle e then ((true, none), f)
      else if isDialFailure e then
        if f.maxRetries ≤ f.retriesByConnIndex connIndex then
          let reset := Function.update f.retriesByConnIndex connIndex 0
          ((true, some ⟨true⟩), { f with retriesByConnIndex := reset })
        else
          let bumped := Function.update f.retriesByConnIndex connIndex
            (f.retriesByConnIndex connIndex + 1)
          ((true, some ⟨false⟩), { f with retriesByConnIndex := bumped })
      else ((false, none), f)

/-- Per-slot backoff and protocol state: `protocolFallback` from
src/supervisor/tunnel.go.  The embedded `retry.BackoffHandler` is repository
code not under src/; its observable state is Modelled from the spec:
a retry count that increases across attempts, a retry ceiling, and
`ReachedMaxRetries() → bool` (spec §4.3, §6 "Retries: backoff retry ceiling"). -/
structure ProtocolFallback where
  retries : Nat
  maxRetries : Nat
  protocol : Protocol
  inFallback : Bool
deriving DecidableEq, Repr

/-- Modelled from the spec: `ReachedMaxRetries() → bool` of the
retry.BackoffHandler (not under src/) — the retry count has reached the
ceiling. -/
def ProtocolFallback.ReachedMaxRetries (pb : ProtocolFallback) : Bool :=
  pb.maxRetries ≤ pb.retries

/-- Modelled from the spec: `ResetNow()` of the retry.BackoffHandler (not
under src/) clears the retry count. -/
def ProtocolFallback.ResetNow (pb : ProtocolFallback) : ProtocolFallback :=
  { pb with retries := 0 }

/-- `protocolFallback.reset` from src/supervisor/tunnel.go:
`ResetNow(); inFallback = false`. -/
def ProtocolFallback.reset (pb : ProtocolFallback) : ProtocolFallback :=
  { pb.ResetNow with inFallback := false }

/-- `protocolFallback.fallback` from src/supervisor/tunnel.go:
`ResetNow(); protocol = fallback; inFallback = true`. -/
def ProtocolFallback.fallback (pb : ProtocolFallback) (fb : Protocol) : ProtocolFallback :=
  { pb.ResetNow with protocol := fb, inFallback := true }

/-- The read-only view of `connection.ProtocolSelector` the core consumes:
`Current()` and `Fallback() → (Protocol, bool)`, the latter modelled as an
`Option`. -/
structure ProtocolSelector where
  current : Protocol
  fallback : Option Protocol
deriving DecidableEq, Repr

/-- `selectNextProtocol` from src/supervisor/tunnel.go, returning the updated
`protocolFallback` state (the Go function mutates it) and the Bool result. -/
def selectNextProtocol (protocolBackoff : ProtocolFallback) (selector : ProtocolSelector)
    (cause : Option GoErr) : ProtocolFallback × Bool :=
  let hasFallback := selector.fallback.isSome
  if protocolBackoff.ReachedMaxRetries || (hasFallback && isQuicBroken cause) then
    match selector.fallback with
    | none => (protocolBackoff, false)
    | some fb =>
        if protocolBackoff.protocol = fb then (protocolBackoff, false)
        else (protocolBackoff.fallback fb, true)
  else if !protocolBackoff.inFallback then
    ({ protocolBackoff with protocol := selector.current }, true)
  else
    (protocolBackoff, true)

/-- The decision procedure exactly as claim C1 orders it (spec §4.3 steps 2-4,
first match wins, applying when step 1 does not): step 2 — if max retries have
been reached and a fallback protocol exists, switch to the fallback and return
true; step 3 — else if the current protocol is already the fallback protocol,
return false; step 4 — else if not yet in fallback, realign the protocol to
the selector's Current() and return true (continue retrying otherwise). -/
def claimedNextProtocol (pb : ProtocolFallback) (selector : ProtocolSelector) :
    ProtocolFallback × Bool :=
  match selector.fallback with
  | some fb =>
      if pb.ReachedMaxRetries then (pb.fallback fb, true)
      else if pb.protocol = fb then (pb, false)
      else if !pb.inFallback then ({ pb with protocol := selector.current }, true)
      else (pb, true)
  | none =>
      if pb.ReachedMaxRetries then
        if !pb.inFallback then ({ pb with protocol := selector.current }, true)
        else (pb, true)
      else if !pb.inFallback then ({ pb with protocol := selector.current }, true)
      else (pb, true)

/-- Claim C1 amended to the code: after step 1, if max retries have been
reached the give-up checks come first — no fallback protocol, or the slot's
protocol already equal to the fallback, yields false; otherwise the slot
switches to the fallback and returns true.  If max retries have not been
reached the call returns true, realigning the protocol to the selector's
Current() exactly when the slot is not in fallback. -/
def amendedNextProtocol (pb : ProtocolFallback) (selector : ProtocolSelector) :
    ProtocolFallback × Bool :=
  if pb.ReachedMaxRetries then
    match selector.fallback with
    | none => (pb, false)
    | some fb =>
        if pb.protocol = fb then (pb, false)
        else (pb.fallback fb, true)
  else if !pb.inFallback then ({ pb with protocol := selector.current }, true)
  else (pb, true)

/-- An event that can arrive while a slot worker sits in the post-failure wait
of `EdgeTunnelServer.Serve` (src/supervisor/tunnel.go): the parent context is
cancelled, the graceful-shutdown channel fires, the backoff timer fires, or a
reconnect signal is sent on the external reconnect channel. -/
inductive WaitEvent
  | ctxDone
  | gracefulShutdown
  | backoffTimer
  | reconnectArrives
deriving DecidableEq, Repr

/-- What the wait does when it unblocks. -/
inductive WaitOutcome
  | returnCtxErr
  | returnNil
  | proceedToProtocolPick
deriving DecidableEq, Repr

/-- The post-failure `select` of `EdgeTunnelServer.Serve` in
src/supervisor/tunnel.go.  The select lists exactly three channels:
`ctx.Done()` (return `ctx.Err()`), `gracefulShutdownC` (return nil), and
`protocolFallback.BackoffTimer()` (proceed to the protocol-pick logic).  A Go
select does not unblock for a channel it does not list, so an event on the
reconnect channel leaves the wait blocked, modelled as `none`. -/
def serveWaitStep : WaitEvent → Option WaitOutcome
  | .ctxDone => some .returnCtxErr
  | .gracefulShutdown => some .returnNil
  | .backoffTimer => some .proceedToProtocolPick
  | .reconnectArrives => none

/-- The `BackoffTimer()` arm of the post-failure select in
`EdgeTunnelServer.Serve` (src/supervisor/tunnel.go), reduced to its effect on
the per-slot `protocolFallback` state (every path of the arm returns the serve
error `err`; the protocol state mutation is the only difference between the
paths).  `trackerHasConnectedWith` is `tunnelstate.ConnTracker.HasConnectedWith`
and is queried at `ProtocolSelector.Current()`. -/
def backoffTimerBranch (pb : ProtocolFallback) (selector : ProtocolSelector)
    (trackerHasConnectedWith : Protocol → Bool) (shouldFallbackProtocol : Bool)
    (cause : Option GoErr) : ProtocolFallback :=
  if !shouldFallbackProtocol then pb
  else if trackerHasConnectedWith selector.current then pb
  else (selectNextProtocol pb selector cause).1

/-- One-shot boolean fuse write.  Modelled from the spec: the connected latch
is "a one-shot latch; once set ... sticky" (spec §3); `newBooleanFuse`/`Fuse`
live in the supervisor package but outside src/. -/
def fuseSet : Option Bool → Bool → Option Bool
  | none, b => some b
  | some v, _ => some v

/-- The per-slot state touched by the control stream's connected callback:
the slot's boolean fuse, its `protocolFallback`, and the shared
`ipAddrFallback` error classifier (reachable from the same
`EdgeTunnelServer`). -/
structure SlotState where
  fuse : Option Bool
  backoff : ProtocolFallback
  addrHandler : IpAddrFallback

/-- `connectedFuse.Connected` from src/supervisor/tunnel.go:
`cf.fuse.Fuse(true); cf.backoff.reset()` — and nothing else; in particular it
does not touch the error classifier's counters. -/
def connectedFuseConnected (s : SlotState) : SlotState :=
  { s with fuse := fuseSet s.fuse true, backoff := s.backoff.reset }

/-- A recovered Go panic value `r`: either an error (`r.(error)` succeeds) or
any other value, kept as its formatted text. -/
inductive PanicVal
  | errVal (e : GoErr)
  | otherVal (msg : String)
deriving DecidableEq, Repr

/-- The error built from a recovered panic value in `serveTunnel`
(src/supervisor/tunnel.go): the value itself if it is an error, else
`fmt.Errorf("ServeTunnel: %v", r)`. -/
def recoveredErr : PanicVal → GoErr
  | .errVal e => e
  | .otherVal msg => .other ("ServeTunnel: " ++ msg)

/-- How the body of `serveTunnel` ended: `serveConnection` returned an error
(or nil), or some part of the body panicked with a value (`stack` is the
`debug.Stack()` text captured at recovery). -/
inductive ServeBodyOutcome
  | normal (err : Option GoErr)
  | panicked (v : PanicVal) (stack : String)
deriving DecidableEq, Repr

/-- The result triple of `serveTunnel`: the returned error, the retryable
flag, and the sleep performed before returning (`some d` exactly when
`ReconnectSignal.DelayBeforeReconnect` slept the carried delay `d`). -/
structure ServeMapResult where
  err : Option GoErr
  recoverable : Bool
  sleepDelay : Option Nat
deriving DecidableEq, Repr

/-- Dynamic type is `unrecoverableError` (the `err.(unrecoverableError)` type
assertion in serveTunnel's default case). -/
def isUnrecoverable : GoErr → Bool
  | .unrecoverable _ => true
  | _ => false

/-- `EdgeTunnelServer.serveTunnel` from src/supervisor/tunnel.go as a function
of how its body ended: the deferred recover converts a panic into
`errors.Wrapf(err, "stack trace: ...")` with recoverable true; otherwise the
error-type switch maps the serve error.  (The switch returns on every non-nil
error, so the recoverable flag coming out of `serveConnection` is never
propagated.) -/
def serveTunnel : ServeBodyOutcome → ServeMapResult
  | .panicked v stack =>
      ⟨some (.wrapped ("stack trace: " ++ stack) (recoveredErr v)), true, none⟩
  | .normal none => ⟨none, false, none⟩
  | .normal (some .dupConnRegister) => ⟨some .dupConnRegister, false, none⟩
  | .normal (some (.serverRegister cause perm)) => ⟨some cause, !perm, none⟩
  | .normal (some (.edgeQuicDialError c)) => ⟨some (.edgeQuicDialError c), false, none⟩
  | .normal (some (.reconnectSignal d)) => ⟨some (.reconnectSignal d), true, some d⟩
  | .normal (some e) =>
      if e = .contextCanceled then ⟨some e, false, none⟩
      else ⟨some e, !isUnrecoverable e, none⟩

/-- The serve-error table exactly as claim C6 states it, giving the retryable
flag and the slept delay: duplicate-registration not retryable; server-side
registration error retryable iff not marked permanent; EdgeQuicDialError not
retryable; ReconnectSignal sleeps the carried delay and is retryable; context
cancellation and unrecoverable errors not retryable; every other error
retryable. -/
def claimedRetryability : GoErr → Bool × Option Nat
  | .dupConnRegister => (false, none)
  | .serverRegister _ perm => (!perm, none)
  | .edgeQuicDialError _ => (false, none)
  | .reconnectSignal d => (true, some d)
  | .contextCanceled => (false, none)
  | .unrecoverable _ => (false, none)
  | _ => (true, none)

/-- The deadline state of a TLS client connection (`none` models the zero
`time.Time{}`, i.e. no deadline). -/
structure TLSConnState where
  deadline : Option Nat
deriving DecidableEq, Repr

/-- The environment `DialEdge` runs against: whether the proxy dialer supports
`DialContext`, the outcome of the TCP dial through either path (`none` is
success), the outcome of the TLS handshake, and the wall clock and timeout
that feed `SetDeadline(time.Now().Add(timeout))`. -/
structure DialEnv where
  ctxDialerSupported : Bool
  dialContextResult : Option GoErr
  dialResult : Option GoErr
  handshakeResult : Option GoErr
  now : Nat
  timeout : Nat
deriving DecidableEq, Repr

/-- What a call of `DialEdge` produced: the returned connection or error, and
the deadline that was set on the TLS connection at the moment `Handshake()`
ran (`none` when the handshake was never reached). -/
structure DialEdgeResult where
  result : Except GoErr TLSConnState
  handshakeDeadline : Option (Option Nat)
deriving Repr

/-- `newDialError` from src/edgediscovery/dial.go:
`DialError{cause: errors.Wrap(err, message)}`. -/
def newDialError (e : GoErr) (message : String) : GoErr :=
  .dialError (.wrapped message e)

/-- `DialEdge` from src/edgediscovery/dial.go.  Both dial paths (the
`DialContext`-capable proxy dialer and the plain `Dial` one) feed the same
error check, producing `newDialError(err, "DialContext error")`.  On dial
success the code sets a deadline of now+timeout on the TLS connection, runs
the handshake (a failure produces `newDialError(err, "TLS handshake with edge
error")`), then clears the deadline before returning the connection. -/
def DialEdge (env : DialEnv) : DialEdgeResult :=
  let dialErr := if env.ctxDialerSupported then env.dialContextResult else env.dialResult
  match dialErr with
  | some e => ⟨.error (newDialError e "DialContext error"), none⟩
  | none =>
      let handshakeDeadline : Option Nat := some (env.now + env.timeout)
      match env.handshakeResult with
      | some e => ⟨.error (newDialError e "TLS handshake with edge error"),
                   some handshakeDeadline⟩
      | none => ⟨.ok { deadline := none }, some handshakeDeadline⟩

/-- A slot that fell back to HTTP2 and then exhausted its retries there. -/
def pbGaveUp : ProtocolFallback := ⟨3, 3, .HTTP2, true⟩

/-- A fresh slot on QUIC with retries left. -/
def pbFresh : ProtocolFallback := ⟨0, 5, .QUIC, false⟩

/-- A slot already on the fallback protocol with retries left. -/
def pbOnFallback : ProtocolFallback := ⟨0, 5, .HTTP2, true⟩

/-- A slot on QUIC that just hit its retry ceiling. -/
def pbQuicMaxed : ProtocolFallback := ⟨4, 4, .QUIC, false⟩

/-- A selector preferring QUIC with HTTP2 as fallback. -/
def selQuicHttp2 : ProtocolSelector := ⟨.QUIC, some .HTTP2⟩

/-- A classifier state in which every slot has rotated twice. -/
def classifierTwo : IpAddrFallback := ⟨fun _ => 2, 3⟩

/-- A slot whose classifier counter sits at 2 when the connected callback fires. -/
def slotAfterTwoRotations : SlotState := ⟨none, ⟨1, 3, .QUIC, false⟩, classifierTwo⟩

/-- A tracker that has connected with every protocol. -/
def trackerAllConnected : Protocol → Bool := fun _ => true

/-- A dial environment whose TLS handshake fails. -/
def envHandshakeFail : DialEnv := ⟨true, none, none, some (.other "tls: bad certificate"), 100, 15⟩

/-- A dial environment whose TCP dial fails. -/
def envDialFail : DialEnv :=
  ⟨true, some (.other "dial tcp: i/o timeout"), none, none, 100, 15⟩

/-- Top-level dynamic type is one of the classifier's dial-failure types,
lifted to a possibly-nil error. -/
def isDialFailureO : Option GoErr → Bool
  | none => false
  | some e => isDialFailure e

/-- C1 (amended): after step 1 of the decision procedure, `selectNextProtocol`
behaves as follows — if max retries have been reached, it gives up (returns
false, state unchanged) when no fallback protocol exists or the slot's
protocol already equals the fallback, and otherwise switches the slot to the
fallback (inFallback true, retries reset) and returns true; if max retries
have not been reached it returns true, realigning the slot's protocol to the
selector's Current() exactly when the slot is not in fallback. -/
theorem claim_C1 (pb : ProtocolFallback) (selector : ProtocolSelector) (cause : Option GoErr)
    (h : (isQuicBroken cause && selector.fallback.isSome) = false) :
    selectNextProtocol pb selector cause = amendedNextProtocol pb selector := by
  have h2 : (selector.fallback.isSome && isQuicBroken cause) = false := by
    rw [Bool.and_comm]; exact h
  simp only [selectNextProtocol, amendedNextProtocol, h2, Bool.or_false]

/-- C1 witness: a concrete non-QUIC-broken failure on a fresh slot, with the
hypothesis discharged by evaluation. -/
theorem claim_C1_witness :
    selectNextProtocol pbFresh selQuicHttp2 none = amendedNextProtocol pbFresh selQuicHttp2 :=
  claim_C1 pbFresh selQuicHttp2 none (by decide)

/-- C1 counterexample: a slot that already sits on the fallback protocol and
has reached max retries.  The claim's ordering (spec step 2 before step 3)
switches to the fallback and returns true; the code gives up and returns
false. -/
theorem claim_C1_counterexample :
    selectNextProtocol pbGaveUp selQuicHttp2 (some (.other "connection refused"))
      ≠ claimedNextProtocol pbGaveUp selQuicHttp2 := by
  decide

/-- C2: `ShouldGetNewAddress` implements the claim's classification table,
first match wins, including the per-slot counter reset on reaching max
retries and the increment below it. -/
theorem claim_C2 (f : IpAddrFallback) (connIndex : Nat) (err : Option GoErr) :
    ShouldGetNewAddress f connIndex err = claimedClassify f connIndex err := by
  match err with
  | none => rfl
  | some e => cases e <;> rfl

/-- C3 (amended): for every QUIC-broken cause, whenever the selector reports a
fallback protocol and the slot's current protocol differs from it,
`selectNextProtocol` switches the slot to the fallback and returns true,
regardless of the retry count; when the slot already runs the fallback
protocol it returns false instead. -/
theorem claim_C3 (pb : ProtocolFallback) (selector : ProtocolSelector) (cause : GoErr)
    (fb : Protocol) (hq : isQuicBroken (some cause) = true)
    (hf : selector.fallback = some fb) (hne : pb.protocol ≠ fb) :
    selectNextProtocol pb selector (some cause) = (pb.fallback fb, true) := by
  simp only [selectNextProtocol, hf, hq, Option.isSome_some, Bool.true_and, Bool.and_true,
    Bool.or_true, if_pos rfl]
  simp [hne]

/-- C3 witness: an idle-timeout on a fresh QUIC slot with HTTP2 fallback
available. -/
theorem claim_C3_witness :
    selectNextProtocol pbFresh selQuicHttp2 (some .idleTimeout)
      = (pbFresh.fallback .HTTP2, true) :=
  claim_C3 pbFresh selQuicHttp2 .idleTimeout .HTTP2 (by decide) rfl (by decide)

/-- C3 counterexample: a QUIC-broken cause (idle timeout) with a fallback
available, but the slot already runs the fallback protocol — the code returns
false instead of switching, refuting "switches ... regardless of the retry
count" as universally stated. -/
theorem claim_C3_counterexample :
    isQuicBroken (some GoErr.idleTimeout) = true ∧
    selQuicHttp2.fallback = some Protocol.HTTP2 ∧
    (selectNextProtocol pbOnFallback selQuicHttp2 (some GoErr.idleTimeout)).2 = false := by
  decide

/-- C4: whenever the tracker reports HasConnectedWith for the selector's
current protocol, the backoff-timer branch of Serve leaves the slot's
protocolFallback state (protocol and inFallback included) unchanged even for a
slot at its retry ceiling, so the slot never downgrades and retries on its
current protocol. -/
theorem claim_C4 (pb : ProtocolFallback) (selector : ProtocolSelector)
    (tracker : Protocol → Bool) (shouldFallbackProtocol : Bool) (cause : Option GoErr)
    (htr : tracker selector.current = true)
    (_hmax : pb.ReachedMaxRetries = true) :
    backoffTimerBranch pb selector tracker shouldFallbackProtocol cause = pb := by
  unfold backoffTimerBranch
  cases shouldFallbackProtocol <;> simp [htr]

/-- C4 witness: a QUIC slot at its ceiling while some slot already connected
with the selector's current protocol. -/
theorem claim_C4_witness :
    backoffTimerBranch pbQuicMaxed selQuicHttp2 trackerAllConnected true
      (some GoErr.idleTimeout) = pbQuicMaxed :=
  claim_C4 pbQuicMaxed selQuicHttp2 trackerAllConnected true (some GoErr.idleTimeout)
    rfl (by decide)

/-- C5 (amended): when the control stream's Connected callback fires, the
backoff retry count and the inFallback flag are reset, but the error
classifier's per-slot rotation counters are left entirely unchanged — they
reset only inside ShouldGetNewAddress upon reaching maxRetries. -/
theorem claim_C5 (s : SlotState) :
    (connectedFuseConnected s).backoff.retries = 0 ∧
    (connectedFuseConnected s).backoff.inFallback = false ∧
    (connectedFuseConnected s).addrHandler = s.addrHandler :=
  ⟨rfl, rfl, rfl⟩

/-- C5 counterexample: a slot whose rotation counter is 2 when Connected
fires still has counter 2 afterwards, so the next failure does not observe
rotationCount = 0. -/
theorem claim_C5_counterexample :
    (connectedFuseConnected slotAfterTwoRotations).addrHandler.retriesByConnIndex 0 = 2 ∧
    ¬ (connectedFuseConnected slotAfterTwoRotations).addrHandler.retriesByConnIndex 0 = 0 := by
  decide

/-- C6: serveTunnel maps each serve error to the retryability and sleep the
claim's table prescribes: duplicate registration not retryable; server-side
registration error retryable iff not permanent; EdgeQuicDialError not
retryable; ReconnectSignal sleeps the carried delay and is retryable; the
context-cancellation sentinel and unrecoverable errors not retryable; every
other error retryable. -/
theorem claim_C6 (e : GoErr) :
    ((serveTunnel (.normal (some e))).recoverable, (serveTunnel (.normal (some e))).sleepDelay)
      = claimedRetryability e := by
  cases e <;> rfl

/-- C7 (amended): the post-failure wait of Serve unblocks for exactly three
events — returning the context's error on cancellation, returning nil on
graceful shutdown, and proceeding to the protocol pick when the backoff timer
fires; a reconnect signal does not unblock this wait (the reconnect channel is
only read while serving). -/
theorem claim_C7 :
    serveWaitStep .ctxDone = some .returnCtxErr ∧
    serveWaitStep .gracefulShutdown = some .returnNil ∧
    serveWaitStep .backoffTimer = some .proceedToProtocolPick ∧
    serveWaitStep .reconnectArrives = none :=
  ⟨rfl, rfl, rfl, rfl⟩

/-- C7 counterexample: a reconnect signal arriving during the post-failure
wait does not unblock it — the select in Serve does not list the reconnect
channel, refuting "blocks on the earliest of ... or a reconnect signal". -/
theorem claim_C7_counterexample :
    serveWaitStep WaitEvent.reconnectArrives = none := rfl

/-- C8: every panic in the serve body is recovered and returned as an error
wrapped with the captured stack trace, with the retryable flag true. -/
theorem claim_C8 (v : PanicVal) (stack : String) :
    serveTunnel (.panicked v stack)
      = ⟨some (.wrapped ("stack trace: " ++ stack) (recoveredErr v)), true, none⟩ :=
  rfl

/-- C9: DialEdge sets the deadline now+timeout on the TLS connection for the
handshake and clears it before returning on success, and every failure — TCP
dial or TLS handshake — is returned as a DialError wrapping the underlying
cause. -/
theorem claim_C9 (env : DialEnv) :
    (∀ e, (if env.ctxDialerSupported then env.dialContextResult else env.dialResult) = some e →
        DialEdge env
          = ⟨.error (GoErr.dialError (.wrapped "DialContext error" e)), none⟩) ∧
    ((if env.ctxDialerSupported then env.dialContextResult else env.dialResult) = none →
      (∀ e, env.handshakeResult = some e →
          DialEdge env
            = ⟨.error (GoErr.dialError (.wrapped "TLS handshake with edge error" e)),
               some (some (env.now + env.timeout))⟩) ∧
      (env.handshakeResult = none →
        DialEdge env = ⟨.ok ⟨none⟩, some (some (env.now + env.timeout))⟩)) := by
  refine ⟨fun e he => ?_, fun hd => ⟨fun e he => ?_, fun hh => ?_⟩⟩
  · simp only [DialEdge, newDialError, he]
  · simp only [DialEdge, newDialError, hd, he]
  · simp only [DialEdge, newDialError, hd, hh]

/-- C9 witness: a failing handshake yields a DialError wrapping the TLS error
with the deadline having been set to now+timeout, and a failing TCP dial
yields a DialError wrapping the dial error with the handshake never reached. -/
theorem claim_C9_witness :
    DialEdge envHandshakeFail
      = ⟨.error (GoErr.dialError (.wrapped "TLS handshake with edge error"
          (.other "tls: bad certificate"))), some (some 115)⟩ ∧
    DialEdge envDialFail
      = ⟨.error (GoErr.dialError (.wrapped "DialContext error"
          (.other "dial tcp: i/o timeout"))), none⟩ :=
  ⟨((claim_C9 envHandshakeFail).2 rfl).1 (.other "tls: bad certificate") rfl,
   (claim_C9 envDialFail).1 (.other "dial tcp: i/o timeout") rfl⟩

/-- C10: the classifier mutates its per-slot counters only in the
dial-failure branch — for any error whose top-level type is not DialError or
EdgeQuicDialError (nil, duplicate registration, idle timeout, or anything
else), the whole classifier state, every slot's counter included, is returned
unchanged. -/
theorem claim_C10 (f : IpAddrFallback) (connIndex : Nat) (err : Option GoErr)
    (h : isDialFailureO err = false) :
    (ShouldGetNewAddress f connIndex err).2 = f := by
  match err with
  | none => rfl
  | some e =>
      cases e <;> simp_all [isDialFailureO, isDialFailure, ShouldGetNewAddress]

/-- C10 witness: an idle-timeout rotation leaves the counters of a classifier
state untouched. -/
theorem claim_C10_witness :
    (ShouldGetNewAddress classifierTwo 1 (some GoErr.idleTimeout)).2 = classifierTwo :=
  claim_C10 classifierTwo 1 (some GoErr.idleTimeout) rfl

end CloudflaredProxy
